import Mathlib

/-!
Formal model of `src/challenge/match_evaluator.py`
(`EnhancedTenantMatchEvaluator`), a tenant-screening match scorer.

Modelling conventions:
* Python strings are `List Char` (ASCII fragment: the code's regex classes
  `\w`/`\s` and `str.lower()` are modelled by their ASCII behaviour).
* Python floats are modelled as exact rationals `ℚ`.
* A Python dict key that may be absent is an `Option` field; for the string
  attributes a present-but-`None` value behaves exactly like `""` in every
  code path (every consumer guards with falsiness first), so both are
  modelled as `some []`.  The `dob` value is genuinely three-valued
  (raw string / parsed `datetime` / `None`) and gets its own type.
* `datetime.now()` is an explicit `today : Date` parameter.
* The two external string-similarity library calls
  (`difflib.SequenceMatcher(...).ratio()` and
  `jellyfish.jaro_winkler_similarity`) are not part of this repository; they
  are abstracted as a parameter record `StrSim`.  Theorems that need facts
  about them take those facts as hypotheses; concrete witnesses instantiate
  `StrSim` with a simple similarity that agrees with both libraries on the
  inputs exercised (identical or empty strings).
* Python exceptions are modelled with `Option`/`Except`: `none`/`.error`
  means the corresponding Python code raises.
-/

set_option maxRecDepth 16384

/-- A Python string, as a list of characters. -/
abbrev PyStr := List Char

/-- A calendar date (the date part of a Python `datetime`; the engine never
uses the time-of-day component). -/
structure Date where
  year : Nat
  month : Nat
  day : Nat
deriving DecidableEq, Repr

/-- The possible values stored under the `dob` key of a record dict:
a raw string, a parsed `datetime`, or Python `None`. -/
inductive DobVal where
  | str (s : PyStr)
  | date (d : Date)
  | null
deriving DecidableEq, Repr

/-- An identity record: one Python dict as consumed by the evaluator.
`none` in a field means the key is absent from the dict.
`name_parts` and `age` are the derived keys added by normalization
(line 95 and lines 117-121 of `match_evaluator.py`); they may also be
present on raw input. -/
structure Record where
  first_name : Option PyStr := none
  middle_name : Option PyStr := none
  last_name : Option PyStr := none
  full_name : Option PyStr := none
  dob : Option DobVal := none
  location : Option PyStr := none
  nationality : Option PyStr := none
  gender : Option PyStr := none
  name_parts : Option (Finset PyStr) := none
  age : Option Int := none
deriving DecidableEq

/-! ### Character-level helpers (`re.sub(r'[^\w\s]', '', ...)` and `.lower()`) -/

/-- Python's `\s` class (ASCII fragment): tab, newline, vertical tab,
form feed, carriage return, space. -/
def wsChar (c : Char) : Bool :=
  (9 ≤ c.toNat ∧ c.toNat ≤ 13) ∨ c.toNat = 32

/-- Python's `\w` or `\s` character class (ASCII fragment): the characters
KEPT by `re.sub(r'[^\w\s]', '', name)` in `_normalize_name` (line 130) —
digits, letters, underscore, whitespace. -/
def keepChar (c : Char) : Bool :=
  (48 ≤ c.toNat ∧ c.toNat ≤ 57) ∨ (65 ≤ c.toNat ∧ c.toNat ≤ 90)
    ∨ (97 ≤ c.toNat ∧ c.toNat ≤ 122) ∨ c.toNat = 95 ∨ wsChar c

/-- ASCII lower-casing, modelling Python `str.lower()` per character. -/
def lowerChar (c : Char) : Char :=
  if 65 ≤ c.toNat ∧ c.toNat ≤ 90 then Char.ofNat (c.toNat + 32) else c

/-- Model of `_normalize_name` on a non-empty string (lines 125-131): strip every
character that is not alphanumeric / underscore / whitespace, then
lower-case. -/
def normalizeName (s : PyStr) : PyStr :=
  (s.filter keepChar).map lowerChar

/-- Model of `_normalize_name` including its falsy guard (`if not name: return ""`),
lifted to an optional argument (the method is also exercised with `None`). -/
def normalizeNameOpt (s : Option PyStr) : PyStr :=
  match s with
  | none => []
  | some s => if s = [] then [] else normalizeName s

/-- Python `str.split()` with no separator: split on whitespace runs,
discarding empty tokens. -/
def splitWs (s : PyStr) : List PyStr :=
  (List.splitOnP wsChar s).filter (· ≠ [])

/-! ### `datetime.strptime` for the four dob formats (lines 104-115)

`strptime` compiles each format to a regex (`%Y` ↦ four digits,
`%m` ↦ `1[0-2]|0[1-9]|[1-9]`, `%d` ↦ `3[01]|[12]\d|0[1-9]|[1-9]`,
literals verbatim), takes the first full match under the usual
backtracking order, and then lets the `datetime` constructor validate
the calendar date (an invalid date raises `ValueError`, which the
source catches and treats as a parse failure for that format). -/

/-- Decimal digit value of a character, if it is `0`-`9`. -/
def digitVal (c : Char) : Option Nat :=
  if 48 ≤ c.toNat ∧ c.toNat ≤ 57 then some (c.toNat - 48) else none

/-- Match exactly four digits (the `%Y` regex). -/
def parse4 : PyStr → Option (Nat × PyStr)
  | a :: b :: c :: d :: rest =>
    match digitVal a, digitVal b, digitVal c, digitVal d with
    | some x, some y, some z, some w => some (1000 * x + 100 * y + 10 * z + w, rest)
    | _, _, _, _ => none
  | _ => none

/-- Match a two-digit alternative of `%m`/`%d`: two digits whose value is
in `1..maxv` (the regex alternations exclude `00` and values above the
bound). -/
def parse2 (maxv : Nat) : PyStr → Option (Nat × PyStr)
  | a :: b :: rest =>
    match digitVal a, digitVal b with
    | some x, some y =>
      let v := 10 * x + y
      if 1 ≤ v ∧ v ≤ maxv then some (v, rest) else none
    | _, _ => none
  | _ => none

/-- Match the one-digit alternative `[1-9]`. -/
def parse1 : PyStr → Option (Nat × PyStr)
  | a :: rest =>
    match digitVal a with
    | some x => if 1 ≤ x then some (x, rest) else none
    | none => none
  | [] => none

/-- One token of a `strptime` format string. -/
inductive FTok where
  | year
  | month
  | day
  | lit (c : Char)

/-- Run a format against input with regex backtracking: two-digit
month/day alternatives are tried before the one-digit one, and the whole
input must be consumed.  Returns the first full match as
`(year, month, day)` (components not present in the format stay 0,
unused: every dob format contains all three). -/
def runFmt : List FTok → PyStr → Nat → Nat → Nat → Option (Nat × Nat × Nat)
  | [], [], y, m, d => some (y, m, d)
  | [], _ :: _, _, _, _ => none
  | FTok.lit c :: ts, x :: rest, y, m, d =>
    if x = c then runFmt ts rest y m d else none
  | FTok.lit _ :: _, [], _, _, _ => none
  | FTok.year :: ts, s, _, m, d =>
    match parse4 s with
    | some (v, rest) => runFmt ts rest v m d
    | none => none
  | FTok.month :: ts, s, y, _, d =>
    match parse2 12 s with
    | some (v, rest) =>
      match runFmt ts rest y v d with
      | some r => some r
      | none =>
        match parse1 s with
        | some (v1, rest1) => runFmt ts rest1 y v1 d
        | none => none
    | none =>
      match parse1 s with
      | some (v1, rest1) => runFmt ts rest1 y v1 d
      | none => none
  | FTok.day :: ts, s, y, m, _ =>
    match parse2 31 s with
    | some (v, rest) =>
      match runFmt ts rest y m v with
      | some r => some r
      | none =>
        match parse1 s with
        | some (v1, rest1) => runFmt ts rest1 y m v1
        | none => none
    | none =>
      match parse1 s with
      | some (v1, rest1) => runFmt ts rest1 y m v1
      | none => none

/-- Gregorian leap year. -/
def isLeap (y : Nat) : Bool :=
  (y % 4 == 0 && y % 100 != 0) || y % 400 == 0

/-- Days in a month (`datetime` validity). -/
def daysInMonth (y m : Nat) : Nat :=
  if m = 2 then (if isLeap y then 29 else 28)
  else if m = 4 ∨ m = 6 ∨ m = 9 ∨ m = 11 then 30
  else 31

/-- The `datetime(y, m, d)` constructor's validity check
(`MINYEAR = 1`, `MAXYEAR = 9999`). -/
def validDate (y m d : Nat) : Bool :=
  1 ≤ y && y ≤ 9999 && 1 ≤ m && m ≤ 12 && 1 ≤ d && d ≤ daysInMonth y m

/-- Model of `datetime.strptime(s, fmt)` for one dob format: regex match, then
calendar validation. -/
def tryFormat (ts : List FTok) (s : PyStr) : Option Date :=
  match runFmt ts s 0 0 0 with
  | some (y, m, d) => if validDate y m d then some ⟨y, m, d⟩ else none
  | none => none

/-- The format list of line 106: `['%Y-%m-%d', '%d/%m/%Y', '%m/%d/%Y',
'%d-%m-%Y']`, in order. -/
def dobFormats : List (List FTok) :=
  [ [FTok.year, FTok.lit '-', FTok.month, FTok.lit '-', FTok.day],
    [FTok.day, FTok.lit '/', FTok.month, FTok.lit '/', FTok.year],
    [FTok.month, FTok.lit '/', FTok.day, FTok.lit '/', FTok.year],
    [FTok.day, FTok.lit '-', FTok.month, FTok.lit '-', FTok.year] ]

/-- The `for fmt in [...]` loop of lines 106-113: first format that
parses wins; if none parses the result is `None`. -/
def parseDob (s : PyStr) : Option Date :=
  dobFormats.findSome? (fun f => tryFormat f s)

/-! ### `_normalize_tenant_data` (lines 85-123) -/

/-- The per-name-field step of lines 90-92: normalize the value only when
the key is present and the value truthy. -/
def normField (v : Option PyStr) : Option PyStr :=
  match v with
  | some s => if s = [] then some s else some (normalizeName s)
  | none => none

/-- The token set contributed by one (already normalized) name field to
`name_parts` (lines 96-99): present and truthy fields contribute their
whitespace-split tokens. -/
def partsOf (v : Option PyStr) : Finset PyStr :=
  match v with
  | some s => if s = [] then ∅ else (splitWs s).toFinset
  | none => ∅

/-- The dob step of lines 101-115: a present, truthy string value is
parsed (unparseable strings become `None`); everything else is left
unchanged. -/
def normDob (v : Option DobVal) : Option DobVal :=
  match v with
  | none => none
  | some DobVal.null => some DobVal.null
  | some (DobVal.date d) => some (DobVal.date d)
  | some (DobVal.str s) =>
    if s = [] then some (DobVal.str s)
    else
      match parseDob s with
      | some d => some (DobVal.date d)
      | none => some DobVal.null

/-- The age derivation of lines 117-121 (only when the dob value is a
`datetime`). -/
def ageFrom (today : Date) (d : Date) : Int :=
  (today.year : Int) - d.year -
    (if today.month < d.month ∨ (today.month = d.month ∧ today.day < d.day)
      then 1 else 0)

/-- Model of `_normalize_tenant_data` (lines 85-123): copy the record, normalize
the four name fields, recompute `name_parts` from the normalized fields,
parse the dob, and derive `age` when the dob is a date.  Total: the
Python method never raises on a record of this (typed) data model. -/
def normalizeTenantData (today : Date) (r : Record) : Record :=
  let fn := normField r.first_name
  let mn := normField r.middle_name
  let ln := normField r.last_name
  let fl := normField r.full_name
  let parts := partsOf fn ∪ partsOf mn ∪ partsOf ln ∪ partsOf fl
  let dob := normDob r.dob
  let age :=
    match dob with
    | some (DobVal.date d) => some (ageFrom today d)
    | _ => r.age
  { r with
    first_name := fn, middle_name := mn, last_name := ln, full_name := fl,
    name_parts := some parts, dob := dob, age := age }

/-! ### Attribute comparators (lines 133-272) -/

/-- The two external string-similarity library functions used by
`_calculate_name_similarity` and `_compare_locations`, abstracted:
`seqSim a b` models `difflib.SequenceMatcher(None, a, b).ratio()` and
`jwSim a b` models `jellyfish.jaro_winkler_similarity(a, b)`. -/
structure StrSim where
  seqSim : PyStr → PyStr → ℚ
  jwSim : PyStr → PyStr → ℚ

/-- A concrete instantiation of the library functions used by closed
theorems: discrete equality similarity.  It agrees with both real
libraries on every pair of strings those theorems exercise (a string
against an identical copy, or a pair involving the empty string). -/
def eqSim : StrSim :=
  ⟨fun a b => if a = b then 1 else 0, fun a b => if a = b then 1 else 0⟩

/-- A second instantiation (constant zero), used to exhibit that a
concrete evaluation does not depend on the library functions at all. -/
def zeroSim : StrSim := ⟨fun _ _ => 0, fun _ _ => 0⟩

/-- Model of `_calculate_name_similarity` (lines 133-166): falsy guard, re-normalize
both names, then the maximum of the sequence ratio, the Jaro-Winkler
score, and the token-overlap fraction
`|parts(a) ∩ parts(b)| / |parts(a)|`. -/
def calcNameSimilarity (L : StrSim) (tenantName matchName : PyStr) : ℚ :=
  if tenantName = [] ∨ matchName = [] then 0
  else
    let a := normalizeName tenantName
    let b := normalizeName matchName
    let sequenceScore := L.seqSim a b
    let jaroWinklerScore := L.jwSim a b
    let tenantParts := (splitWs a).toFinset
    let matchParts := (splitWs b).toFinset
    let partsOverlap :=
      if tenantParts ≠ ∅
        then ((tenantParts ∩ matchParts).card : ℚ) / tenantParts.card
        else 0
    max sequenceScore (max jaroWinklerScore partsOverlap)

/-- Model of `_compare_dates` (lines 168-189) on its annotated input type
`Optional[datetime]`: exact match 1.0, same year 0.5, otherwise (or with
a missing input) 0.0. -/
def compareDates (date1 date2 : Option Date) : ℚ :=
  match date1, date2 with
  | none, _ => 0
  | _, none => 0
  | some d1, some d2 =>
    if d1 = d2 then 1
    else if d1.year = d2.year then 1 / 2
    else 0

/-- Model of `_compare_dates` on the dynamically-typed values that
`evaluate_match` actually passes (normalized `dob` dict values).
`none` models the `AttributeError` raised by `date1.year` when one side
is a (non-`None`, non-equal) string: Python's `x is None` check only
catches `None`, and `datetime == str` is `False`, after which `.year`
is taken on both operands. -/
def compareDobVals : DobVal → DobVal → Option ℚ
  | DobVal.null, _ => some 0
  | _, DobVal.null => some 0
  | DobVal.date d1, DobVal.date d2 =>
    some (if d1 = d2 then 1 else if d1.year = d2.year then 1 / 2 else 0)
  | DobVal.str s1, DobVal.str s2 => if s1 = s2 then some 1 else none
  | DobVal.date _, DobVal.str _ => none
  | DobVal.str _, DobVal.date _ => none

/-- Model of `_compare_locations` (lines 191-211): falsy guard, normalize both,
then the sequence ratio. -/
def compareLocations (L : StrSim) (tenantLocation matchLocation : Option PyStr) : ℚ :=
  match tenantLocation, matchLocation with
  | some a, some b =>
    if a = [] ∨ b = [] then 0
    else L.seqSim (normalizeName a) (normalizeName b)
  | _, _ => 0

/-- Model of `_compare_nationalities` (lines 213-235): falsy guard, normalize
both, exact equality. -/
def compareNationalities (tenantNationality matchNationality : Option PyStr) : ℚ :=
  match tenantNationality, matchNationality with
  | some a, some b =>
    if a = [] ∨ b = [] then 0
    else if normalizeName a = normalizeName b then 1 else 0
  | _, _ => 0

/-- Python `str.strip()`: drop leading and trailing whitespace. -/
def stripWs (s : PyStr) : PyStr :=
  ((s.dropWhile wsChar).reverse.dropWhile wsChar).reverse

/-- The gender canonicalization of lines 252-266: lower-case, strip,
then map through the synonym table (`gender_map.get(g, g)`). -/
def genderCanon (s : PyStr) : PyStr :=
  let t := stripWs (s.map lowerChar)
  if t = ['m'] then ['m', 'a', 'l', 'e']
  else if t = ['f'] then ['f', 'e', 'm', 'a', 'l', 'e']
  else if t = ['m', 'a', 'n'] then ['m', 'a', 'l', 'e']
  else if t = ['w', 'o', 'm', 'a', 'n'] then ['f', 'e', 'm', 'a', 'l', 'e']
  else t

/-- Model of `_compare_gender` (lines 237-272): falsy guard, canonicalize both
sides, exact equality. -/
def compareGender (tenantGender matchGender : Option PyStr) : ℚ :=
  match tenantGender, matchGender with
  | some a, some b =>
    if a = [] ∨ b = [] then 0
    else if genderCanon a = genderCanon b then 1 else 0
  | _, _ => 0

/-! ### The classifier `_get_match_category` (lines 67-72, 274-301) -/

/-- The four relevance tiers. -/
inductive Category where
  | HIGH_RELEVANCE
  | MEDIUM_RELEVANCE
  | LOW_RELEVANCE
  | NOT_RELEVANT
deriving DecidableEq, Repr

/-- The `MATCH_CATEGORIES` table (lines 67-72), already listed in the
descending `min_score` order that the `sorted(..., reverse=True)` call
of lines 284-288 produces. -/
def matchCategories : List (Category × ℚ × String) :=
  [ (Category.HIGH_RELEVANCE, 4 / 5, "Highly Relevant Match"),
    (Category.MEDIUM_RELEVANCE, 3 / 5, "Potentially Relevant Match"),
    (Category.LOW_RELEVANCE, 2 / 5, "Low Relevance Match"),
    (Category.NOT_RELEVANT, 0, "Not Relevant") ]

/-- The result of `_get_match_category`. -/
structure CategoryInfo where
  category : Category
  label : String
  score : ℚ
deriving DecidableEq

/-- Model of `_get_match_category` (lines 274-301): first category, scanning from
the highest threshold down, whose threshold the score meets or exceeds;
the dead fallback of lines 296-301 returns `NOT_RELEVANT`. -/
def getMatchCategory (score : ℚ) : CategoryInfo :=
  match matchCategories.find? (fun e => score ≥ e.2.1) with
  | some e => ⟨e.1, e.2.2, score⟩
  | none => ⟨Category.NOT_RELEVANT, "Not Relevant", score⟩

/-- Rank of a category (higher = more relevant), for the monotonicity
property. -/
def categoryRank : Category → Nat
  | Category.NOT_RELEVANT => 0
  | Category.LOW_RELEVANCE => 1
  | Category.MEDIUM_RELEVANCE => 2
  | Category.HIGH_RELEVANCE => 3

/-- The threshold of a category from the `MATCH_CATEGORIES` table. -/
def minScoreOf : Category → ℚ
  | Category.HIGH_RELEVANCE => 4 / 5
  | Category.MEDIUM_RELEVANCE => 3 / 5
  | Category.LOW_RELEVANCE => 2 / 5
  | Category.NOT_RELEVANT => 0

/-- The label of a category from the `MATCH_CATEGORIES` table. -/
def labelOf : Category → String
  | Category.HIGH_RELEVANCE => "Highly Relevant Match"
  | Category.MEDIUM_RELEVANCE => "Potentially Relevant Match"
  | Category.LOW_RELEVANCE => "Low Relevance Match"
  | Category.NOT_RELEVANT => "Not Relevant"

/-! ### `evaluate_match` (lines 303-469) -/

/-- One entry of `match_reasons` / `mismatch_reasons`.  The Python code
builds f-strings; the model carries the constructor tag and the embedded
score instead of the rendered text. -/
inductive Reason where
  | nameStrong (score : ℚ)
  | namePartMatch (score : ℚ)
  | nameMismatch (score : ℚ)
  | dobExact
  | dobPartMatch
  | dobMismatch
  | locationStrong (score : ℚ)
  | locationPartMatch (score : ℚ)
  | nationalityExact
  | nationalityMismatch
  | genderExact
  | genderMismatch
deriving DecidableEq, Repr

/-- The name-score computation of lines 329-362, on the stored (already
normalized) tenant record and the normalized candidate: compare
`full_name`s when both dicts carry the key, otherwise take the best of
the `first_name` comparison, the `last_name` comparison and the
`name_parts` overlap `|tp ∩ mp| / max(|tp|, |mp|)`. -/
def nameScore (L : StrSim) (tenant nm : Record) : ℚ :=
  match nm.full_name, tenant.full_name with
  | some mfn, some tfn => calcNameSimilarity L tfn mfn
  | _, _ =>
    let firstNameScore :=
      match nm.first_name, tenant.first_name with
      | some mf, some tf => calcNameSimilarity L tf mf
      | _, _ => 0
    let lastNameScore :=
      match nm.last_name, tenant.last_name with
      | some ml, some tl => calcNameSimilarity L tl ml
      | _, _ => 0
    let partsScore :=
      match tenant.name_parts, nm.name_parts with
      | some tp, some mp =>
        if tp ≠ ∅ ∧ mp ≠ ∅
          then ((tp ∩ mp).card : ℚ) / (max tp.card mp.card : ℚ)
          else 0
      | _, _ => 0
    max firstNameScore (max lastNameScore partsScore)

/-- The dob-score computation of lines 364-366: compare only when both
dicts carry the `dob` key, otherwise the score stays 0.  `none` models
the `AttributeError` described at `compareDobVals`. -/
def dobScoreOf (tenant nm : Record) : Option ℚ :=
  match tenant.dob, nm.dob with
  | some a, some b => compareDobVals a b
  | _, _ => some 0

/-- The result dict returned by `evaluate_match`: the original candidate
dict (with the dob re-serialization of lines 466-467 applied) plus the
five added evaluation keys of lines 459-463. -/
structure EvalResult where
  data : Record
  relevance_score : ℚ
  match_category : Category
  match_label : String
  match_reasons : List Reason
  mismatch_reasons : List Reason
deriving DecidableEq

/-- Model of `strftime` with format `%Y-%m-%d` (line 467) for years 1000-9999: four year
digits, two zero-padded month digits, two zero-padded day digits. -/
def formatIso (d : Date) : PyStr :=
  let c := fun n => Char.ofNat (48 + n % 10)
  [c (d.year / 1000), c (d.year / 100), c (d.year / 10), c d.year, '-',
    c (d.month / 10), c d.month, '-', c (d.day / 10), c d.day]

/-- The final dob serialization of lines 465-467: only a value that is
still a `datetime` instance in the ORIGINAL candidate dict is rendered
as a `YYYY-MM-DD` string; raw strings and `None` pass through. -/
def serializeDob (v : Option DobVal) : Option DobVal :=
  match v with
  | some (DobVal.date d) => some (DobVal.str (formatIso d))
  | other => other

/-- Lines 397-406: the availability-dependent weight total (the name
weight is always counted). -/
def totalWeightOf (dobIn locIn natIn genIn : Bool) : ℚ :=
  1 / 2 + (if dobIn then 1 / 5 else 0) + (if locIn then 1 / 10 else 0)
    + (if natIn then 1 / 10 else 0) + (if genIn then 1 / 10 else 0)

/-- Lines 408-423 at a given weight total: the renormalization (with its
`total_weight > 0` guard, whose false branch keeps the base weights) and
the weighted sum. -/
def relevanceAux (totalWeight nameSc dobSc locationSc nationalitySc genderSc : ℚ)
    (dobIn locIn natIn genIn : Bool) : ℚ :=
  let nameW := if totalWeight > 0 then 1 / 2 / totalWeight else 1 / 2
  let dobW := if totalWeight > 0
    then (if dobIn then 1 / 5 / totalWeight else 0) else 1 / 5
  let locW := if totalWeight > 0
    then (if locIn then 1 / 10 / totalWeight else 0) else 1 / 10
  let natW := if totalWeight > 0
    then (if natIn then 1 / 10 / totalWeight else 0) else 1 / 10
  let genW := if totalWeight > 0
    then (if genIn then 1 / 10 / totalWeight else 0) else 1 / 10
  nameSc * nameW + dobSc * dobW + locationSc * locW
    + nationalitySc * natW + genderSc * genW

/-- Lines 389-423: base weights, availability-dependent total,
renormalization, weighted sum. -/
def relevanceScoreOf (nameSc dobSc locationSc nationalitySc genderSc : ℚ)
    (dobIn locIn natIn genIn : Bool) : ℚ :=
  relevanceAux (totalWeightOf dobIn locIn natIn genIn) nameSc dobSc
    locationSc nationalitySc genderSc dobIn locIn natIn genIn

/-- Lines 425-453: the `(match_reasons, mismatch_reasons)` pair, entries
in emission order. -/
def reasonListsOf (nameSc dobSc locationSc nationalitySc genderSc : ℚ)
    (dobIn natIn genIn : Bool) : List Reason × List Reason :=
  let nameReasons : List Reason × List Reason :=
    if nameSc > 4 / 5 then ([Reason.nameStrong nameSc], [])
    else if nameSc > 1 / 2 then ([Reason.namePartMatch nameSc], [])
    else ([], [Reason.nameMismatch nameSc])
  let dobReasons : List Reason × List Reason :=
    if dobSc = 1 then ([Reason.dobExact], [])
    else if dobSc > 0 then ([Reason.dobPartMatch], [])
    else if dobIn then ([], [Reason.dobMismatch])
    else ([], [])
  let locReasons : List Reason × List Reason :=
    if locationSc > 4 / 5 then ([Reason.locationStrong locationSc], [])
    else if locationSc > 1 / 2 then ([Reason.locationPartMatch locationSc], [])
    else ([], [])
  let natReasons : List Reason × List Reason :=
    if nationalitySc = 1 then ([Reason.nationalityExact], [])
    else if natIn then ([], [Reason.nationalityMismatch])
    else ([], [])
  let genReasons : List Reason × List Reason :=
    if genderSc = 1 then ([Reason.genderExact], [])
    else if genIn then ([], [Reason.genderMismatch])
    else ([], [])
  (nameReasons.1 ++ dobReasons.1 ++ locReasons.1 ++ natReasons.1 ++ genReasons.1,
    nameReasons.2 ++ dobReasons.2 ++ locReasons.2 ++ natReasons.2 ++ genReasons.2)

/-- Model of `evaluate_match` (lines 303-469).  Here `tenant` is `self.tenant_data`,
i.e. the reference record already passed through
`_normalize_tenant_data` at construction (line 82).  Returns `none` when
the Python code raises (only possible inside the dob comparison, see
`compareDobVals`). -/
def evaluateMatch (L : StrSim) (today : Date) (tenant matchData : Record) :
    Option EvalResult :=
  let nm := normalizeTenantData today matchData
  let nameSc := nameScore L tenant nm
  match dobScoreOf tenant nm with
  | none => none
  | some dobSc =>
    -- availability of each attribute: the `'x' in dict` tests of the source
    let dobIn := nm.dob.isSome && tenant.dob.isSome
    let locIn := nm.location.isSome && tenant.location.isSome
    let natIn := nm.nationality.isSome && tenant.nationality.isSome
    let genIn := nm.gender.isSome && tenant.gender.isSome
    let locationSc := if locIn
      then compareLocations L tenant.location nm.location else 0
    let nationalitySc := if natIn
      then compareNationalities tenant.nationality nm.nationality else 0
    let genderSc := if genIn
      then compareGender tenant.gender nm.gender else 0
    let relevanceScore := relevanceScoreOf nameSc dobSc locationSc
      nationalitySc genderSc dobIn locIn natIn genIn
    let rs := reasonListsOf nameSc dobSc locationSc nationalitySc genderSc
      dobIn natIn genIn
    let cat := getMatchCategory relevanceScore
    some
      { data := { matchData with dob := serializeDob matchData.dob },
        relevance_score := relevanceScore,
        match_category := cat.category,
        match_label := cat.label,
        match_reasons := rs.1,
        mismatch_reasons := rs.2 }

/-- Model of `evaluate_matches` (lines 471-481): order-preserving map. -/
def evaluateMatches (L : StrSim) (today : Date) (tenant : Record)
    (ms : List Record) : Option (List EvalResult) :=
  ms.mapM (evaluateMatch L today tenant)

/-! ### `extract_matches_from_pipeline` (lines 483-507)

The pipeline container is untyped JSON-ish data, so this part of the
code is modelled over a dedicated dynamic value type.  `.error` models a
Python exception escaping the method. -/

/-- A dynamic (JSON-ish) Python value, as handled by the pipeline
extraction code. -/
inductive PyVal where
  | null
  | bool (b : Bool)
  | int (n : Int)
  | str (s : String)
  | list (xs : List PyVal)
  | dict (kvs : List (String × PyVal))

/-- Model of `d.get(k)` and `k in d` on a dict, first binding wins (real Python
dicts have unique keys, so first-match lookup is faithful). -/
def pyGet (kvs : List (String × PyVal)) (k : String) : Option PyVal :=
  (kvs.find? (fun p => p.1 = k)).map Prod.snd

/-- Model of list `extend` of a Python value: iterating it.  Lists yield their
elements, strings their characters (as 1-character strings), dicts their
keys; `None`, booleans and ints are not iterable and raise `TypeError`. -/
def pyIter : PyVal → Except String (List PyVal)
  | PyVal.list xs => Except.ok xs
  | PyVal.str s => Except.ok (s.toList.map (fun c => PyVal.str (String.singleton c)))
  | PyVal.dict kvs => Except.ok (kvs.map (fun p => PyVal.str p.1))
  | _ => Except.error "TypeError: argument is not iterable"

/-- The test of line 500: only a string value can
compare equal to a string literal in Python. -/
def isBlacklistTag : Option PyVal → Bool
  | some (PyVal.str t) => t == "refinitiv-blacklist"
  | _ => false

/-- Lines 500-502 / 503-505, applied to one step: a non-dict step raises
`AttributeError` at `step.get('type')`; a dict step contributes the
iteration of its `results` value when its `type` equals
`refinitiv-blacklist` and a `results` key exists, else nothing. -/
def stepResults : PyVal → Except String (List PyVal)
  | PyVal.dict kvs =>
    if isBlacklistTag (pyGet kvs "type") then
      match pyGet kvs "results" with
      | some rs => pyIter rs
      | none => Except.ok []
    else Except.ok []
  | _ => Except.error "AttributeError: object has no attribute get"

/-- The loop of lines 499-502 over a list of steps, concatenating in
encounter order. -/
def stepsResults : List PyVal → Except String (List PyVal)
  | [] => Except.ok []
  | s :: rest => do
    let xs ← stepResults s
    let ys ← stepsResults rest
    pure (xs ++ ys)

/-- Model of `extract_matches_from_pipeline` (lines 483-507).  The argument is
the top-level dict (the method's annotated input type). -/
def extractMatchesFromPipeline (pipelineData : List (String × PyVal)) :
    Except String (List PyVal) :=
  match pyGet pipelineData "pipeline" with
  | none => Except.ok []
  | some (PyVal.list steps) => stepsResults steps
  | some (PyVal.dict kvs) => stepResults (PyVal.dict kvs)
  | some _ => Except.ok []

/-! ### A store-passing model of the dict mutations in `evaluate_match`

Claim C9 is about aliasing: `evaluate_match` must not write through the
caller's dict.  The pure functions above cannot express that, so the
copy/write structure of lines 314 (`result = match_data.copy()`), 87
(`normalized = data.copy()`), 459-463 and 466-467 (writes to `result`)
is replayed against an explicit heap of dict cells. -/

/-- A heap cell: one candidate/result dict.  `evalKeys` holds the five
keys added by lines 459-463 (absent on raw candidates). -/
structure DictCell where
  base : Record
  evalKeys : Option (ℚ × Category × String × List Reason × List Reason)
deriving DecidableEq

/-- A heap of dict cells addressed by references. -/
abbrev Heap := List (Nat × DictCell)

/-- Heap lookup (first binding wins). -/
def hGet (h : Heap) (r : Nat) : Option DictCell :=
  (h.find? (fun p => p.1 = r)).map Prod.snd

/-- In-place update of the cell at `r` (a Python dict mutation). -/
def hSet (h : Heap) (r : Nat) (v : DictCell) : Heap :=
  h.map (fun p => if p.1 = r then (r, v) else p)

/-- A reference strictly larger than every allocated one. -/
def freshRef (h : Heap) : Nat :=
  (h.map (fun p => p.1)).foldr (fun a b => Nat.max a b) 0 + 1

/-- Allocation of a new dict (`.copy()` allocates). -/
def hAlloc (h : Heap) (v : DictCell) : Heap × Nat :=
  ((freshRef h, v) :: h, freshRef h)

/-- Model of `evaluate_match` replayed against the heap: `mRef` is the caller's
candidate dict.  Line 314 copies it into a fresh `result` cell; line 327
(via the copy at line 87) builds the normalized dict in another fresh
cell; all subsequent writes (lines 459-463 and 466-467) target the
`result` cell only.  Returns the final heap, and the result reference
unless the Python code raised. -/
def evaluateMatchHeap (L : StrSim) (today : Date) (tenant : Record)
    (h : Heap) (mRef : Nat) : Heap × Option Nat :=
  match hGet h mRef with
  | none => (h, none)
  | some cell =>
    let a1 := hAlloc h cell
    let h1 := a1.1
    let resRef := a1.2
    let a2 := hAlloc h1 ⟨normalizeTenantData today cell.base, cell.evalKeys⟩
    let h2 := a2.1
    match evaluateMatch L today tenant cell.base with
    | none => (h2, none)
    | some res =>
      let h3 := hSet h2 resRef
        ⟨cell.base, some (res.relevance_score, res.match_category,
          res.match_label, res.match_reasons, res.mismatch_reasons)⟩
      let h4 :=
        match cell.base.dob with
        | some (DobVal.date d) => hSet h3 resRef
          ⟨{ cell.base with dob := some (DobVal.str (formatIso d)) },
            some (res.relevance_score, res.match_category,
              res.match_label, res.match_reasons, res.mismatch_reasons)⟩
        | _ => h3
      (h4, some resRef)

/-! ### Claim-side definitions

These definitions follow the words of the spec/claims (not the code) and
exist to be compared against the code model. -/

/-- The value `if b then w else 0`: the contribution of one attribute's base
weight to the total. -/
def includeWeight (b : Bool) (w : ℚ) : ℚ := if b then w else 0

/-- The weight total of lines 397-406 as a function of the four
availability flags (name always included). -/
def codeTotalWeight (bD bL bN bG : Bool) : ℚ :=
  1 / 2 + includeWeight bD (1 / 5) + includeWeight bL (1 / 10)
    + includeWeight bN (1 / 10) + includeWeight bG (1 / 10)

/-- The renormalized weighted sum over the five attributes: each included
weight divided by the total, excluded attributes contributing 0
regardless of their comparator score. -/
def renormalizedRelevance (nameSc dobSc locSc natSc genSc : ℚ)
    (bD bL bN bG : Bool) : ℚ :=
  let T := codeTotalWeight bD bL bN bG
  nameSc * (1 / 2 / T) + dobSc * (includeWeight bD (1 / 5) / T)
    + locSc * (includeWeight bL (1 / 10) / T)
    + natSc * (includeWeight bN (1 / 10) / T)
    + genSc * (includeWeight bG (1 / 10) / T)

/-- Claim C1's notion of dob availability: per the claim an unparseable
date is "treated as absent", so the dob counts as present only when its
normalized value is an actual parsed date. -/
def claimDobAvailable : Option DobVal → Bool
  | some (DobVal.date _) => true
  | _ => false

/-- The relevance score as claim C1 words it: dob weight included only
when both sides hold a parsed date after normalization (an unparseable
date contributes zero dob-weight); other attribute weights included when
present on both sides. -/
def claimRelevanceC1 (L : StrSim) (today : Date) (tenant matchData : Record) : ℚ :=
  let nm := normalizeTenantData today matchData
  let bD := claimDobAvailable tenant.dob && claimDobAvailable nm.dob
  let bL := nm.location.isSome && tenant.location.isSome
  let bN := nm.nationality.isSome && tenant.nationality.isSome
  let bG := nm.gender.isSome && tenant.gender.isSome
  let dobSc :=
    match tenant.dob, nm.dob with
    | some (DobVal.date d1), some (DobVal.date d2) =>
      compareDates (some d1) (some d2)
    | _, _ => 0
  renormalizedRelevance (nameScore L tenant nm) dobSc
    (compareLocations L tenant.location nm.location)
    (compareNationalities tenant.nationality nm.nationality)
    (compareGender tenant.gender nm.gender) bD bL bN bG

/-- A string of the exact shape `YYYY-MM-DD`: ten characters, digits
except for dashes at positions 4 and 7. -/
def isIsoDateString : PyStr → Bool
  | [a, b, c, d, h1, e, f, h2, g, i] =>
    (digitVal a).isSome && (digitVal b).isSome && (digitVal c).isSome
      && (digitVal d).isSome && h1 == '-' && (digitVal e).isSome
      && (digitVal f).isSome && h2 == '-' && (digitVal g).isSome
      && (digitVal i).isSome
  | _ => false


/-! ### Concrete records used by the closed theorems, and claim-side step spec -/

/-- The reference evaluation day used by concrete theorems (the value of
`datetime.now()` is irrelevant to every scored field). -/
def day0 : Date := ⟨2020, 1, 1⟩

/-- Reference identity used by the C1 witness: dob and nationality. -/
def c1WitTenant : Record :=
  normalizeTenantData day0
    { dob := some (DobVal.str ['1', '9', '9', '0', '-', '0', '1', '-', '0', '1']),
      nationality := some ['U', 'S'] }

/-- Candidate used by the C1 witness: nationality only. -/
def c1WitCand : Record := { nationality := some ['U', 'S'] }

/-- Reference identity of the C1 counterexample: a parseable dob and a
nationality (no name attributes at all, so the name comparators — and
with them the external similarity libraries — are never consulted). -/
def c1CexTenant : Record :=
  normalizeTenantData day0
    { dob := some (DobVal.str ['1', '9', '9', '0', '-', '0', '1', '-', '0', '1']),
      nationality := some ['U', 'S'] }

/-- Candidate of the C1 counterexample: an UNPARSEABLE dob string and
the same nationality. -/
def c1CexCand : Record :=
  { dob := some (DobVal.str ['g', 'a', 'r', 'b', 'a', 'g', 'e']),
    nationality := some ['U', 'S'] }

/-- Candidate of the C2 witness: a dob supplied as a `datetime`. -/
def c2WitCand : Record := { dob := some (DobVal.date ⟨1990, 1, 15⟩) }

/-- Candidate of the C2 counterexample: a dob supplied as the string
`15/01/1990` (the supported `%d/%m/%Y` format). -/
def c2CexCand : Record :=
  { dob := some (DobVal.str ['1', '5', '/', '0', '1', '/', '1', '9', '9', '0']) }

/-- The record of the C5 witness: all five attributes present with
ordinary values. -/
def c5WitRec : Record :=
  { full_name := some ['J', 'o', 'h', 'n', ' ', 'D', 'o', 'e'],
    dob := some (DobVal.str ['1', '9', '9', '0', '-', '0', '1', '-', '0', '1']),
    location := some ['N', 'Y'],
    nationality := some ['U', 'S'],
    gender := some ['m', 'a', 'l', 'e'] }

/-- The record of the C5 counterexample: all five scorable attributes
present and truthy, but with a `full_name` made only of punctuation, so
its normalized form is empty. -/
def c5CexRec : Record :=
  { full_name := some ['!', '!', '!'],
    dob := some (DobVal.str ['1', '9', '9', '0', '-', '0', '1', '-', '0', '1']),
    location := some ['X'],
    nationality := some ['U', 'S'],
    gender := some ['m', 'a', 'l', 'e'] }

/-- The contribution of one pipeline step per the spec: a dict step
tagged `refinitiv-blacklist` contributes its `results` list, anything
else contributes nothing. -/
def specStepResults : PyVal → List PyVal
  | PyVal.dict kvs =>
    if isBlacklistTag (pyGet kvs "type") then
      match pyGet kvs "results" with
      | some (PyVal.list xs) => xs
      | _ => []
    else []
  | _ => []

/-- A step shape the extraction loop handles without raising: a dict
whose `results` value (when the step is tagged and carries one) is a
list. -/
def goodStep (s : PyVal) : Prop :=
  ∃ kvs, s = PyVal.dict kvs
    ∧ (isBlacklistTag (pyGet kvs "type") = true →
        ∀ v, pyGet kvs "results" = some v → ∃ xs, v = PyVal.list xs)

/-! ### Helper lemmas -/

/-- Characters kept by the normalization filter stay kept after
lower-casing. -/
theorem keepChar_lowerChar {c : Char} (h : keepChar c = true) :
    keepChar (lowerChar c) = true := by
  unfold lowerChar
  split
  · rename_i hc
    have hv : (c.toNat + 32).isValidChar := Or.inl (by omega)
    have ht : (Char.ofNat (c.toNat + 32)).toNat = c.toNat + 32 := by
      unfold Char.ofNat
      rw [dif_pos hv]
      rfl
    unfold keepChar wsChar
    simp only [decide_eq_true_eq, ht]
    omega
  · exact h

/-- ASCII lower-casing is idempotent. -/
theorem lowerChar_idem (c : Char) : lowerChar (lowerChar c) = lowerChar c := by
  unfold lowerChar
  split
  · rename_i hc
    have hv : (c.toNat + 32).isValidChar := Or.inl (by omega)
    have ht : (Char.ofNat (c.toNat + 32)).toNat = c.toNat + 32 := by
      unfold Char.ofNat
      rw [dif_pos hv]
      rfl
    rw [if_neg]
    rw [ht]
    omega
  · rfl

/-- Idempotence of `_normalize_name`. -/
theorem normalizeName_idem (s : PyStr) :
    normalizeName (normalizeName s) = normalizeName s := by
  unfold normalizeName
  have h1 : ((s.filter keepChar).map lowerChar).filter keepChar
      = (s.filter keepChar).map lowerChar := by
    apply List.filter_eq_self.mpr
    intro a ha
    rcases List.mem_map.mp ha with ⟨b, hb, rfl⟩
    exact keepChar_lowerChar (List.of_mem_filter hb)
  rw [h1, List.map_map]
  exact List.map_congr_left (fun a _ => lowerChar_idem a)

/-- Idempotence of `normDob`. -/
theorem normDob_idem (v : Option DobVal) : normDob (normDob v) = normDob v := by
  unfold normDob
  match v with
  | none => rfl
  | some DobVal.null => rfl
  | some (DobVal.date d) => rfl
  | some (DobVal.str s) =>
    by_cases hs : s = []
    · simp [hs]
    · simp only [if_neg hs]
      cases hp : parseDob s with
      | some d => rfl
      | none => rfl

/-- Idempotence of `normField`. -/
theorem normField_idem (v : Option PyStr) : normField (normField v) = normField v := by
  unfold normField
  match v with
  | none => rfl
  | some s =>
    by_cases hs : s = []
    · simp [hs]
    · simp only [if_neg hs]
      by_cases hn : normalizeName s = []
      · simp [hn]
      · simp [hn, normalizeName_idem]

/-- Field projections of `_normalize_tenant_data`. -/
theorem normalizeTenantData_fields (today : Date) (r : Record) :
    (normalizeTenantData today r).first_name = normField r.first_name
    ∧ (normalizeTenantData today r).middle_name = normField r.middle_name
    ∧ (normalizeTenantData today r).last_name = normField r.last_name
    ∧ (normalizeTenantData today r).full_name = normField r.full_name
    ∧ (normalizeTenantData today r).dob = normDob r.dob
    ∧ (normalizeTenantData today r).name_parts
      = some (partsOf (normField r.first_name) ∪ partsOf (normField r.middle_name)
        ∪ partsOf (normField r.last_name) ∪ partsOf (normField r.full_name))
    ∧ (normalizeTenantData today r).location = r.location
    ∧ (normalizeTenantData today r).nationality = r.nationality
    ∧ (normalizeTenantData today r).gender = r.gender := by
  unfold normalizeTenantData
  exact ⟨rfl, rfl, rfl, rfl, rfl, rfl, rfl, rfl, rfl⟩

/-- Key presence is preserved by dob normalization. -/
theorem normDob_isSome (v : Option DobVal) : (normDob v).isSome = v.isSome := by
  unfold normDob
  match v with
  | none => rfl
  | some DobVal.null => rfl
  | some (DobVal.date d) => rfl
  | some (DobVal.str s) =>
    by_cases hs : s = []
    · simp [hs]
    · simp only [if_neg hs]
      cases hp : parseDob s with
      | some d => rfl
      | none => rfl

/-- Key presence is preserved by name-field normalization. -/
theorem normField_isSome (v : Option PyStr) : (normField v).isSome = v.isSome := by
  unfold normField
  match v with
  | none => rfl
  | some s =>
    by_cases hs : s = []
    · simp [hs]
    · simp [hs]

/-- Closed form of `_get_match_category`, for non-negative scores. -/
theorem getMatchCategory_closed (s : ℚ) (h : 0 ≤ s) :
    getMatchCategory s =
      if 4 / 5 ≤ s then ⟨Category.HIGH_RELEVANCE, "Highly Relevant Match", s⟩
      else if 3 / 5 ≤ s then ⟨Category.MEDIUM_RELEVANCE, "Potentially Relevant Match", s⟩
      else if 2 / 5 ≤ s then ⟨Category.LOW_RELEVANCE, "Low Relevance Match", s⟩
      else ⟨Category.NOT_RELEVANT, "Not Relevant", s⟩ := by
  unfold getMatchCategory matchCategories
  by_cases h1 : 4 / 5 ≤ s
  · simp [List.find?, ge_iff_le, h1]
  · by_cases h2 : 3 / 5 ≤ s
    · simp [List.find?, ge_iff_le, h1, h2]
    · by_cases h3 : 2 / 5 ≤ s
      · simp [List.find?, ge_iff_le, h1, h2, h3]
      · simp [List.find?, ge_iff_le, h1, h2, h3, h]

/-- The rank of the selected category, as interval tests. -/
theorem getMatchCategory_rank (s : ℚ) (h : 0 ≤ s) :
    categoryRank (getMatchCategory s).category =
      if 4 / 5 ≤ s then 3 else if 3 / 5 ≤ s then 2 else if 2 / 5 ≤ s then 1
      else 0 := by
  rw [getMatchCategory_closed s h]
  by_cases h1 : 4 / 5 ≤ s
  · simp [h1, categoryRank]
  · by_cases h2 : 3 / 5 ≤ s
    · simp [h1, h2, categoryRank]
    · by_cases h3 : 2 / 5 ≤ s
      · simp [h1, h2, h3, categoryRank]
      · simp [h1, h2, h3, categoryRank]

/-- C6: `_get_match_category` is total on `[0,1]` and monotonic: every
score in `[0,1]` is classified, the selected category is the
highest-threshold one whose `min_score` the score meets or exceeds, the
returned label and score are the selected category's table label and the
input score, and a larger score never selects a lower-ranked category. -/
theorem getMatchCategory_total_monotonic (s : ℚ) (h0 : 0 ≤ s) (_h1 : s ≤ 1) :
    minScoreOf (getMatchCategory s).category ≤ s
    ∧ (∀ c, minScoreOf c ≤ s → categoryRank c ≤ categoryRank (getMatchCategory s).category)
    ∧ (getMatchCategory s).label = labelOf (getMatchCategory s).category
    ∧ (getMatchCategory s).score = s
    ∧ (∀ s2, s ≤ s2 → s2 ≤ 1 →
        categoryRank (getMatchCategory s).category
          ≤ categoryRank (getMatchCategory s2).category) := by
  refine ⟨?_, ?_, ?_, ?_, ?_⟩
  · rw [getMatchCategory_closed s h0]
    split_ifs with ha hb hc
    · simp [minScoreOf]; linarith
    · simp [minScoreOf]; linarith
    · simp [minScoreOf]; linarith
    · simp only [minScoreOf]; exact h0
  · intro c hc
    rw [getMatchCategory_rank s h0]
    cases c <;> simp [minScoreOf] at hc <;>
      split_ifs <;> simp [categoryRank] <;> linarith
  · rw [getMatchCategory_closed s h0]
    split_ifs <;> simp [labelOf]
  · rw [getMatchCategory_closed s h0]
    split_ifs <;> rfl
  · intro s2 hs2 _
    rw [getMatchCategory_rank s h0, getMatchCategory_rank s2 (le_trans h0 hs2)]
    split_ifs <;> first | omega | linarith

/-- C6 witness: the classifier theorem applied at the concrete score
`7/10` (hypotheses `0 ≤ 7/10 ≤ 1` discharged there; selected category
`MEDIUM_RELEVANCE`). -/
theorem getMatchCategory_total_monotonic_witness :
    minScoreOf (getMatchCategory (7 / 10)).category ≤ 7 / 10
    ∧ (getMatchCategory (7 / 10)).category = Category.MEDIUM_RELEVANCE :=
  ⟨(getMatchCategory_total_monotonic (7 / 10) (by norm_num) (by norm_num)).1,
    by rw [getMatchCategory_closed (7 / 10) (by norm_num)]; norm_num⟩

/-- Reduction of `_compare_dates` on two present dates. -/
theorem compareDates_some (d1 d2 : Date) :
    compareDates (some d1) (some d2)
      = if d1 = d2 then 1 else if d1.year = d2.year then 1 / 2 else 0 := rfl

/-- C7: `_compare_dates` returns exactly 1 precisely on two equal
present dates, exactly 1/2 precisely on two distinct present dates with
equal years, 0 in every other case (in particular whenever either input
is absent), and is symmetric. -/
theorem compareDates_spec (a b : Option Date) :
    compareDates a b = compareDates b a
    ∧ (compareDates a b = 1 ↔ ∃ d1 d2, a = some d1 ∧ b = some d2 ∧ d1 = d2)
    ∧ (compareDates a b = 1 / 2
        ↔ ∃ d1 d2, a = some d1 ∧ b = some d2 ∧ d1 ≠ d2 ∧ d1.year = d2.year)
    ∧ ((a = none ∨ b = none) → compareDates a b = 0)
    ∧ (compareDates a b = 0 ∨ compareDates a b = 1 / 2 ∨ compareDates a b = 1) := by
  match a, b with
  | none, none =>
    refine ⟨rfl, ?_, ?_, fun _ => rfl, Or.inl rfl⟩ <;>
      constructor <;> intro h
    · exact absurd h (by norm_num [compareDates])
    · rcases h with ⟨d1, d2, h1, _⟩; exact absurd h1 (by simp)
    · exact absurd h (by norm_num [compareDates])
    · rcases h with ⟨d1, d2, h1, _⟩; exact absurd h1 (by simp)
  | none, some d =>
    refine ⟨rfl, ?_, ?_, fun _ => rfl, Or.inl rfl⟩ <;>
      constructor <;> intro h
    · exact absurd h (by norm_num [compareDates])
    · rcases h with ⟨d1, d2, h1, _⟩; exact absurd h1 (by simp)
    · exact absurd h (by norm_num [compareDates])
    · rcases h with ⟨d1, d2, h1, _⟩; exact absurd h1 (by simp)
  | some d, none =>
    refine ⟨rfl, ?_, ?_, fun _ => rfl, Or.inl rfl⟩ <;>
      constructor <;> intro h
    · exact absurd h (by norm_num [compareDates])
    · rcases h with ⟨d1, d2, _, h2, _⟩; exact absurd h2 (by simp)
    · exact absurd h (by norm_num [compareDates])
    · rcases h with ⟨d1, d2, _, h2, _⟩; exact absurd h2 (by simp)
  | some d1, some d2 =>
    rw [compareDates_some d1 d2, compareDates_some d2 d1]
    refine ⟨?_, ?_, ?_, ?_, ?_⟩
    · by_cases he : d1 = d2
      · have he' : d2 = d1 := he.symm
        rw [if_pos he, if_pos he']
      · have he' : ¬d2 = d1 := fun h => he h.symm
        rw [if_neg he, if_neg he']
        by_cases hy : d1.year = d2.year
        · rw [if_pos hy, if_pos hy.symm]
        · have hy' : ¬d2.year = d1.year := fun h => hy h.symm
          rw [if_neg hy, if_neg hy']
    · constructor
      · intro h
        by_cases he : d1 = d2
        · exact ⟨d1, d2, rfl, rfl, he⟩
        · exfalso
          rw [if_neg he] at h
          by_cases hy : d1.year = d2.year
          · rw [if_pos hy] at h; norm_num at h
          · rw [if_neg hy] at h; norm_num at h
      · rintro ⟨e1, e2, h1, h2, he⟩
        cases h1; cases h2
        rw [if_pos he]
    · constructor
      · intro h
        by_cases he : d1 = d2
        · exfalso; rw [if_pos he] at h; norm_num at h
        · by_cases hy : d1.year = d2.year
          · exact ⟨d1, d2, rfl, rfl, he, hy⟩
          · exfalso; rw [if_neg he, if_neg hy] at h; norm_num at h
      · rintro ⟨e1, e2, h1, h2, he, hy⟩
        cases h1; cases h2
        rw [if_neg he, if_pos hy]
    · rintro (h | h) <;> exact absurd h (by simp)
    · by_cases he : d1 = d2
      · rw [if_pos he]; right; right; rfl
      · rw [if_neg he]
        by_cases hy : d1.year = d2.year
        · rw [if_pos hy]; right; left; rfl
        · rw [if_neg hy]; left; rfl

/-- C7 witness: the date-comparison theorem applied at two concrete
dates sharing a year (`1990-01-01` and `1990-02-01`), whose score must
be 1/2. -/
theorem compareDates_spec_witness :
    compareDates (some ⟨1990, 1, 1⟩) (some ⟨1990, 2, 1⟩) = 1 / 2 :=
  ((compareDates_spec (some ⟨1990, 1, 1⟩) (some ⟨1990, 2, 1⟩)).2.2.1).mpr
    ⟨⟨1990, 1, 1⟩, ⟨1990, 2, 1⟩, rfl, rfl, by decide, rfl⟩

/-- C8: normalization is idempotent — `_normalize_name` is idempotent on
every string, and re-running `_normalize_tenant_data` on an
already-normalized record leaves every comparable field (the four name
fields, `name_parts`, `dob`) unchanged. -/
theorem normalization_idem (today : Date) (r : Record) (s : PyStr) :
    normalizeName (normalizeName s) = normalizeName s
    ∧ (normalizeTenantData today (normalizeTenantData today r)).first_name
      = (normalizeTenantData today r).first_name
    ∧ (normalizeTenantData today (normalizeTenantData today r)).middle_name
      = (normalizeTenantData today r).middle_name
    ∧ (normalizeTenantData today (normalizeTenantData today r)).last_name
      = (normalizeTenantData today r).last_name
    ∧ (normalizeTenantData today (normalizeTenantData today r)).full_name
      = (normalizeTenantData today r).full_name
    ∧ (normalizeTenantData today (normalizeTenantData today r)).name_parts
      = (normalizeTenantData today r).name_parts
    ∧ (normalizeTenantData today (normalizeTenantData today r)).dob
      = (normalizeTenantData today r).dob := by
  refine ⟨normalizeName_idem s, ?_, ?_, ?_, ?_, ?_, ?_⟩ <;>
    simp only [normalizeTenantData] <;>
    simp only [normField_idem, normDob_idem]

/-- C3: `_normalize_tenant_data` fails soft.  On any (typed) identity
record it is a total function; each present, truthy name field is
replaced by its stripped-and-lower-cased form and absent ones stay
absent; a present, truthy, unparseable dob string is nulled out rather
than raising; and the comparators score an absent/null attribute as 0
(i.e. treat it as unavailable). -/
theorem normalizeTenantData_fail_soft (today : Date) (r : Record) (L : StrSim) :
    (∀ s, r.first_name = some s → s ≠ [] →
      (normalizeTenantData today r).first_name
        = some ((s.filter keepChar).map lowerChar))
    ∧ (∀ s, r.full_name = some s → s ≠ [] →
      (normalizeTenantData today r).full_name
        = some ((s.filter keepChar).map lowerChar))
    ∧ (r.first_name = none → (normalizeTenantData today r).first_name = none)
    ∧ (∀ s, r.dob = some (DobVal.str s) → s ≠ [] → parseDob s = none →
      (normalizeTenantData today r).dob = some DobVal.null)
    ∧ (r.dob = none → (normalizeTenantData today r).dob = none)
    ∧ (∀ v, compareDobVals v DobVal.null = some 0
        ∧ compareDobVals DobVal.null v = some 0)
    ∧ (∀ x, calcNameSimilarity L [] x = 0 ∧ calcNameSimilarity L x [] = 0)
    ∧ (∀ x, compareLocations L none x = 0 ∧ compareLocations L x none = 0)
    ∧ (∀ x, compareNationalities none x = 0 ∧ compareNationalities x none = 0)
    ∧ (∀ x, compareGender none x = 0 ∧ compareGender x none = 0) := by
  refine ⟨?_, ?_, ?_, ?_, ?_, ?_, ?_, ?_, ?_, ?_⟩
  · intro s hs hne
    simp only [normalizeTenantData, normField, hs, if_neg hne]
    rfl
  · intro s hs hne
    simp only [normalizeTenantData, normField, hs, if_neg hne]
    rfl
  · intro hs
    simp only [normalizeTenantData, normField, hs]
  · intro s hs hne hp
    simp only [normalizeTenantData, normDob, hs, if_neg hne, hp]
  · intro hs
    simp only [normalizeTenantData, normDob, hs]
  · intro v
    constructor
    · cases v <;> rfl
    · cases v <;> rfl
  · intro x
    constructor
    · simp [calcNameSimilarity]
    · simp [calcNameSimilarity]
  · intro x
    constructor
    · cases x <;> rfl
    · cases x <;> rfl
  · intro x
    constructor
    · cases x <;> rfl
    · cases x <;> rfl
  · intro x
    constructor
    · cases x <;> rfl
    · cases x <;> rfl

/-- C8 witness: idempotence applied at a concrete record and name
string. -/
theorem normalization_idem_witness :
    normalizeName (normalizeName "John O'Doe".toList)
      = normalizeName "John O'Doe".toList :=
  (normalization_idem ⟨2020, 1, 1⟩ {} "John O'Doe".toList).1

/-- C3 witness: fail-soft normalization applied at a concrete record
with an unparseable dob and a name needing normalization. -/
theorem normalizeTenantData_fail_soft_witness :
    (normalizeTenantData ⟨2020, 1, 1⟩
        { first_name := some "John!".toList
          dob := some (DobVal.str "not-a-date".toList) } : Record).dob
      = some DobVal.null
    ∧ (normalizeTenantData ⟨2020, 1, 1⟩
        { first_name := some "John!".toList
          dob := some (DobVal.str "not-a-date".toList) } : Record).first_name
      = some "john".toList := by
  constructor
  · exact (normalizeTenantData_fail_soft ⟨2020, 1, 1⟩
      { first_name := some "John!".toList
        dob := some (DobVal.str "not-a-date".toList) } eqSim).2.2.2.1
      "not-a-date".toList rfl (by decide) (by decide)
  · have := (normalizeTenantData_fail_soft ⟨2020, 1, 1⟩
      { first_name := some "John!".toList
        dob := some (DobVal.str "not-a-date".toList) } eqSim).1
      "John!".toList rfl (by decide)
    rw [this]
    decide

/-- C10: when the `full_name` key is present on both the stored tenant
record and the normalized candidate — whatever its value, including an
empty (falsy) one — the name score is exactly the `full_name`
comparison: the first/last-name comparisons and the `name_parts` overlap
are never consulted.  An empty `full_name` on either side then forces a
name score of 0 even when first/last names are present and identical on
both sides.  The `full_name` key survives candidate normalization
exactly when the raw candidate carries it. -/
theorem nameScore_full_name_only (L : StrSim) (t c : Record) (a b : PyStr)
    (ht : t.full_name = some a) (hc : c.full_name = some b) :
    nameScore L t c = calcNameSimilarity L a b
    ∧ (a = [] ∨ b = [] → nameScore L t c = 0)
    ∧ (∀ today m, (normalizeTenantData today m).full_name.isSome
        = m.full_name.isSome) := by
  have hmain : nameScore L t c = calcNameSimilarity L a b := by
    unfold nameScore
    rw [hc, ht]
  refine ⟨hmain, ?_, ?_⟩
  · intro hemp
    rw [hmain]
    unfold calcNameSimilarity
    rw [if_pos hemp]
  · intro today m
    rw [(normalizeTenantData_fields today m).2.2.2.1, normField_isSome]

/-- C10 witness: the `full_name`-priority theorem applied at concrete
records whose `full_name` values are both empty but whose
first/last names are present and identical: the name score is 0. -/
theorem nameScore_full_name_only_witness :
    nameScore eqSim
      { full_name := some [], first_name := some "john".toList,
        last_name := some "doe".toList }
      { full_name := some [], first_name := some "john".toList,
        last_name := some "doe".toList } = 0 :=
  (nameScore_full_name_only eqSim
    { full_name := some [], first_name := some "john".toList,
      last_name := some "doe".toList }
    { full_name := some [], first_name := some "john".toList,
      last_name := some "doe".toList } [] [] rfl rfl).2.1 (Or.inl rfl)

/-- The weight total of lines 397-406 is always positive (it contains
the unconditional name weight 1/2). -/
theorem totalWeightOf_pos (bD bL bN bG : Bool) :
    0 < totalWeightOf bD bL bN bG := by
  unfold totalWeightOf
  cases bD <;> cases bL <;> cases bN <;> cases bG <;> norm_num

/-- The sequential weight computation of lines 389-423 (with the
comparator calls gated on key presence as in lines 364-387) equals the
renormalized weighted sum over the five attributes. -/
theorem relevanceScoreOf_eq_renormalized (n ds ls ns gs : ℚ) (bD bL bN bG : Bool) :
    relevanceScoreOf n ds (if bL then ls else 0) (if bN then ns else 0)
        (if bG then gs else 0) bD bL bN bG
      = renormalizedRelevance n ds ls ns gs bD bL bN bG := by
  unfold relevanceScoreOf relevanceAux renormalizedRelevance codeTotalWeight
    totalWeightOf includeWeight
  cases bD <;> cases bL <;> cases bN <;> cases bG <;> norm_num

/-- C1 (amended): the relevance score returned by `evaluate_match` is
the renormalized weighted sum of the five comparator scores, where an
attribute's base weight (dob 1/5, location 1/10, nationality 1/10,
gender 1/10) enters the weight total exactly when the attribute's KEY is
present on both the candidate and the reference dict, and the name
weight 1/2 always enters; each included weight is divided by the total,
excluded attributes contribute 0 regardless of their comparator score.
In particular an unparseable dob string keeps its key (with value
`None`), so its weight stays in the total while its comparator score is
0 — it is NOT treated as absent. -/
theorem evaluateMatch_relevance_renormalized (L : StrSim) (today : Date)
    (t m : Record) (res : EvalResult) (ds : ℚ)
    (hds : dobScoreOf t (normalizeTenantData today m) = some ds)
    (h : evaluateMatch L today t m = some res) :
    res.relevance_score
      = renormalizedRelevance (nameScore L t (normalizeTenantData today m)) ds
        (compareLocations L t.location m.location)
        (compareNationalities t.nationality m.nationality)
        (compareGender t.gender m.gender)
        (m.dob.isSome && t.dob.isSome) (m.location.isSome && t.location.isSome)
        (m.nationality.isSome && t.nationality.isSome)
        (m.gender.isSome && t.gender.isSome)
    ∧ (∀ s, m.dob = some (DobVal.str s) → s ≠ [] → parseDob s = none →
        (normalizeTenantData today m).dob = some DobVal.null ∧ ds = 0) := by
  have hfields := normalizeTenantData_fields today m
  have hloc : (normalizeTenantData today m).location = m.location := hfields.2.2.2.2.2.2.1
  have hnat : (normalizeTenantData today m).nationality = m.nationality :=
    hfields.2.2.2.2.2.2.2.1
  have hgen : (normalizeTenantData today m).gender = m.gender := hfields.2.2.2.2.2.2.2.2
  have hdob : (normalizeTenantData today m).dob = normDob m.dob := hfields.2.2.2.2.1
  constructor
  · simp only [evaluateMatch, hds, Option.some.injEq] at h
    have hrel : res.relevance_score
        = relevanceScoreOf (nameScore L t (normalizeTenantData today m)) ds
          (if (normalizeTenantData today m).location.isSome && t.location.isSome
            then compareLocations L t.location (normalizeTenantData today m).location else 0)
          (if (normalizeTenantData today m).nationality.isSome && t.nationality.isSome
            then compareNationalities t.nationality (normalizeTenantData today m).nationality
            else 0)
          (if (normalizeTenantData today m).gender.isSome && t.gender.isSome
            then compareGender t.gender (normalizeTenantData today m).gender else 0)
          ((normalizeTenantData today m).dob.isSome && t.dob.isSome)
          ((normalizeTenantData today m).location.isSome && t.location.isSome)
          ((normalizeTenantData today m).nationality.isSome && t.nationality.isSome)
          ((normalizeTenantData today m).gender.isSome && t.gender.isSome) := by
      rw [← h]
    rw [hrel, hloc, hnat, hgen, hdob, normDob_isSome]
    exact relevanceScoreOf_eq_renormalized _ _ _ _ _ _ _ _ _
  · intro s hs hne hp
    have h1 : (normalizeTenantData today m).dob = some DobVal.null := by
      rw [hdob, hs]
      simp only [normDob, if_neg hne, hp]
    refine ⟨h1, ?_⟩
    rw [dobScoreOf, h1] at hds
    cases ht : t.dob with
    | none =>
      rw [ht] at hds
      have hds2 : (some 0 : Option ℚ) = some ds := hds
      exact (Option.some.inj hds2).symm
    | some v =>
      rw [ht] at hds
      have hds2 : compareDobVals v DobVal.null = some ds := hds
      have hz : compareDobVals v DobVal.null = some 0 := by cases v <;> rfl
      rw [hz] at hds2
      exact (Option.some.inj hds2).symm

/-- C1 witness: the renormalization theorem applied at a concrete pair
(tenant with dob and nationality, candidate with nationality only): the
hypotheses are discharged by computation and the returned score is the
renormalized sum (nationality weight `(1/10)/(6/10)`, here with
comparator score 1, name score 0: relevance `1/6`). -/
theorem evaluateMatch_relevance_renormalized_witness :
    (evaluateMatch eqSim day0 c1WitTenant c1WitCand).map EvalResult.relevance_score
      = some (renormalizedRelevance (nameScore eqSim c1WitTenant
          (normalizeTenantData day0 c1WitCand)) 0
          (compareLocations eqSim c1WitTenant.location c1WitCand.location)
          (compareNationalities c1WitTenant.nationality c1WitCand.nationality)
          (compareGender c1WitTenant.gender c1WitCand.gender)
          false false true false)
    ∧ (evaluateMatch eqSim day0 c1WitTenant c1WitCand).map EvalResult.relevance_score
      = some (1 / 6) := by
  obtain ⟨res, hres⟩ : ∃ res, evaluateMatch eqSim day0 c1WitTenant c1WitCand = some res :=
    ⟨_, rfl⟩
  have hds : dobScoreOf c1WitTenant (normalizeTenantData day0 c1WitCand) = some 0 := by
    with_unfolding_all decide
  have hmain := (evaluateMatch_relevance_renormalized eqSim day0 c1WitTenant c1WitCand
    res 0 hds hres).1
  constructor
  · rw [hres, Option.map_some', hmain]
    with_unfolding_all decide
  · rw [hres, Option.map_some', hmain]
    with_unfolding_all decide

/-- C1 counterexample: with an unparseable candidate dob the code keeps
the dob weight in the total (total `0.8`, relevance `(1/10)/(8/10) =
1/8`), while the claim — dob "treated as absent", weight excluded —
demands total `0.6` and relevance `(1/10)/(6/10) = 1/6`.  The result is
identical under two different instantiations of the abstracted string
similarity libraries, so the disagreement does not depend on them. -/
theorem claimRelevanceC1_counterexample :
    (evaluateMatch eqSim day0 c1CexTenant c1CexCand).map EvalResult.relevance_score
      = some (1 / 8)
    ∧ claimRelevanceC1 eqSim day0 c1CexTenant c1CexCand = 1 / 6
    ∧ evaluateMatch eqSim day0 c1CexTenant c1CexCand
      = evaluateMatch zeroSim day0 c1CexTenant c1CexCand
    ∧ ((1 : ℚ) / 8) ≠ 1 / 6 := by
  refine ⟨by with_unfolding_all decide, by with_unfolding_all decide,
    by with_unfolding_all decide, by norm_num⟩

/-- The characters produced by the digit positions of
`strftime('%Y-%m-%d')` are decimal digits. -/
theorem digitVal_isSome_ofNat (n : Nat) :
    (digitVal (Char.ofNat (48 + n % 10))).isSome = true := by
  have hv : (48 + n % 10).isValidChar := Or.inl (by omega)
  have ht : (Char.ofNat (48 + n % 10)).toNat = 48 + n % 10 := by
    unfold Char.ofNat
    rw [dif_pos hv]
    rfl
  have hcond : 48 ≤ (Char.ofNat (48 + n % 10)).toNat
      ∧ (Char.ofNat (48 + n % 10)).toNat ≤ 57 := by
    rw [ht]
    omega
  unfold digitVal
  rw [if_pos hcond]
  rfl

/-- C2 (amended): the dob in the dict returned by `evaluate_match` is
the ORIGINALLY SUPPLIED value with only lines 465-467 applied: a dob
supplied as a `datetime` value is rendered as a `YYYY-MM-DD` string, but
a dob supplied as a string — in whatever supported format — is returned
verbatim, and an absent or `None` dob stays as it was.  The rendered
form of a `datetime` dob always has the `YYYY-MM-DD` shape. -/
theorem evaluateMatch_dob_serialization (L : StrSim) (today : Date)
    (t m : Record) (res : EvalResult) (h : evaluateMatch L today t m = some res) :
    res.data.dob = serializeDob m.dob
    ∧ (∀ s, m.dob = some (DobVal.str s) → res.data.dob = some (DobVal.str s))
    ∧ (∀ d, m.dob = some (DobVal.date d) →
        res.data.dob = some (DobVal.str (formatIso d)))
    ∧ (m.dob = none → res.data.dob = none)
    ∧ (∀ d, isIsoDateString (formatIso d) = true) := by
  have hmain : res.data.dob = serializeDob m.dob := by
    cases hds : dobScoreOf t (normalizeTenantData today m) with
    | none =>
      simp only [evaluateMatch, hds] at h
      exact Option.noConfusion h
    | some ds =>
      simp only [evaluateMatch, hds, Option.some.injEq] at h
      rw [← h]
  refine ⟨hmain, ?_, ?_, ?_, ?_⟩
  · intro s hs
    rw [hmain, hs]
    rfl
  · intro d hd
    rw [hmain, hd]
    rfl
  · intro hd
    rw [hmain, hd]
    rfl
  · intro d
    simp [isIsoDateString, formatIso, digitVal_isSome_ofNat]

/-- C2 witness: the serialization theorem applied at a concrete
candidate whose dob is a `datetime`: it comes back as the string
`1990-01-15`, which has the `YYYY-MM-DD` shape. -/
theorem evaluateMatch_dob_serialization_witness :
    (evaluateMatch eqSim day0 (normalizeTenantData day0 {}) c2WitCand).map
        (fun r => r.data.dob)
      = some (some (DobVal.str (formatIso ⟨1990, 1, 15⟩)))
    ∧ isIsoDateString (formatIso ⟨1990, 1, 15⟩) = true := by
  obtain ⟨res, hres⟩ :
      ∃ res, evaluateMatch eqSim day0 (normalizeTenantData day0 {}) c2WitCand
        = some res := ⟨_, rfl⟩
  have hthm := evaluateMatch_dob_serialization eqSim day0
    (normalizeTenantData day0 {}) c2WitCand res hres
  constructor
  · rw [hres, Option.map_some', hthm.2.2.1 ⟨1990, 1, 15⟩ rfl]
  · exact hthm.2.2.2.2 ⟨1990, 1, 15⟩

/-- C2 counterexample: a dob supplied as a `DD/MM/YYYY` string — a
format the normalizer itself parses successfully, witness the third
conjunct — is returned VERBATIM by `evaluate_match`, not re-rendered as
`YYYY-MM-DD`: the returned value does not have the `YYYY-MM-DD`
shape. -/
theorem evaluateMatch_dob_serialization_counterexample :
    (evaluateMatch eqSim day0 (normalizeTenantData day0 {}) c2CexCand).map
        (fun r => r.data.dob)
      = some (some (DobVal.str ['1', '5', '/', '0', '1', '/', '1', '9', '9', '0']))
    ∧ isIsoDateString ['1', '5', '/', '0', '1', '/', '1', '9', '9', '0'] = false
    ∧ parseDob ['1', '5', '/', '0', '1', '/', '1', '9', '9', '0']
      = some ⟨1990, 1, 15⟩ := by
  refine ⟨by with_unfolding_all decide, by decide, by decide⟩

/-- The score of `_calculate_name_similarity` on a non-empty name against itself is 1,
provided the similarity libraries are bounded by 1 and Jaro-Winkler
scores identical inputs as 1. -/
theorem calcNameSimilarity_self (L : StrSim) (a : PyStr) (ha : a ≠ [])
    (hjw : L.jwSim (normalizeName a) (normalizeName a) = 1)
    (hseq : L.seqSim (normalizeName a) (normalizeName a) ≤ 1) :
    calcNameSimilarity L a a = 1 := by
  have hguard : ¬(a = [] ∨ a = []) := by simp [ha]
  simp only [calcNameSimilarity, if_neg hguard]
  set tp := (splitWs (normalizeName a)).toFinset with htp
  have hov : (if tp ≠ ∅ then ((tp ∩ tp).card : ℚ) / tp.card else 0) ≤ 1 := by
    by_cases he : tp = ∅
    · simp [he]
    · rw [if_pos he, Finset.inter_self]
      have hpos : 0 < tp.card :=
        Finset.card_pos.mpr (Finset.nonempty_iff_ne_empty.mpr he)
      have hc : (tp.card : ℚ) ≠ 0 := by
        exact_mod_cast Nat.pos_iff_ne_zero.mp hpos
      rw [div_self hc]
  rw [hjw]
  have h2 : max 1 (if tp ≠ ∅ then ((tp ∩ tp).card : ℚ) / tp.card else 0) = 1 :=
    max_eq_left hov
  rw [h2]
  exact max_eq_right hseq

/-- C5 (amended): evaluating a record against a reference identity built
from it yields relevance exactly 1, `HIGH_RELEVANCE` and no mismatch
reasons, provided the five attributes are present with non-degenerate
values: the `full_name` normalizes to a non-empty string, the dob
normalizes to a parsed date, and location, nationality and gender are
non-empty — and provided the similarity libraries score at most 1
everywhere and score identical non-empty inputs as 1. -/
theorem evaluateMatch_self_perfect (L : StrSim) (today : Date) (r : Record)
    (fn loc nat g : PyStr) (dd : Date)
    (hfn : r.full_name = some fn) (hnn : normalizeName fn ≠ [])
    (hdob : normDob r.dob = some (DobVal.date dd))
    (hloc : r.location = some loc) (hlne : loc ≠ [])
    (hnat : r.nationality = some nat) (hnne : nat ≠ [])
    (hgen : r.gender = some g) (hgne : g ≠ [])
    (hjw : L.jwSim (normalizeName fn) (normalizeName fn) = 1)
    (hseq : L.seqSim (normalizeName fn) (normalizeName fn) ≤ 1)
    (hls : L.seqSim (normalizeName loc) (normalizeName loc) = 1) :
    ∃ res, evaluateMatch L today (normalizeTenantData today r) r = some res
      ∧ res.relevance_score = 1
      ∧ res.match_category = Category.HIGH_RELEVANCE
      ∧ res.mismatch_reasons = [] := by
  have hfields := normalizeTenantData_fields today r
  have hfne : fn ≠ [] := by
    intro h
    exact hnn (by rw [h]; rfl)
  have hfn' : (normalizeTenantData today r).full_name = some (normalizeName fn) := by
    rw [hfields.2.2.2.1, hfn]
    simp [normField, hfne]
  have htdob : (normalizeTenantData today r).dob = some (DobVal.date dd) := by
    rw [hfields.2.2.2.2.1]
    exact hdob
  have htloc : (normalizeTenantData today r).location = some loc := by
    rw [hfields.2.2.2.2.2.2.1, hloc]
  have htnat : (normalizeTenantData today r).nationality = some nat := by
    rw [hfields.2.2.2.2.2.2.2.1, hnat]
  have htgen : (normalizeTenantData today r).gender = some g := by
    rw [hfields.2.2.2.2.2.2.2.2, hgen]
  have hname : nameScore L (normalizeTenantData today r)
      (normalizeTenantData today r) = 1 := by
    unfold nameScore
    rw [hfn']
    refine calcNameSimilarity_self L (normalizeName fn) hnn ?_ ?_ <;>
      rw [normalizeName_idem]
    · exact hjw
    · exact hseq
  have hds : dobScoreOf (normalizeTenantData today r)
      (normalizeTenantData today r) = some 1 := by
    unfold dobScoreOf
    rw [htdob]
    simp [compareDobVals]
  have hlocS : compareLocations L (some loc) (some loc) = 1 := by
    show (if loc = [] ∨ loc = [] then (0 : ℚ)
        else L.seqSim (normalizeName loc) (normalizeName loc)) = 1
    rw [if_neg (by simp [hlne])]
    exact hls
  have hnatS : compareNationalities (some nat) (some nat) = 1 := by
    show (if nat = [] ∨ nat = [] then (0 : ℚ)
        else if normalizeName nat = normalizeName nat then 1 else 0) = 1
    rw [if_neg (by simp [hnne]), if_pos rfl]
  have hgenS : compareGender (some g) (some g) = 1 := by
    show (if g = [] ∨ g = [] then (0 : ℚ)
        else if genderCanon g = genderCanon g then 1 else 0) = 1
    rw [if_neg (by simp [hgne]), if_pos rfl]
  have hrs1 : relevanceScoreOf 1 1 1 1 1 true true true true = 1 := by
    norm_num [relevanceScoreOf, relevanceAux, totalWeightOf]
  cases hE : evaluateMatch L today (normalizeTenantData today r) r with
  | none =>
    exfalso
    simp only [evaluateMatch, hds] at hE
    exact Option.noConfusion hE
  | some res =>
    simp only [evaluateMatch, hds, Option.some.injEq] at hE
    refine ⟨res, rfl, ?_, ?_, ?_⟩ <;>
      rw [← hE] <;>
      simp only [hname, htdob, htloc, htnat, htgen, hlocS, hnatS, hgenS,
        Option.isSome_some, Bool.and_self, if_true]
    · rw [hrs1]
    · rw [hrs1, getMatchCategory_closed 1 (by norm_num)]
      norm_num
    · norm_num [reasonListsOf]

/-- C5 witness: the self-match theorem applied at a concrete
well-formed record, all hypotheses discharged by computation with the
discrete similarity instantiation. -/
theorem evaluateMatch_self_perfect_witness :
    ∃ res, evaluateMatch eqSim day0 (normalizeTenantData day0 c5WitRec) c5WitRec
        = some res
      ∧ res.relevance_score = 1
      ∧ res.match_category = Category.HIGH_RELEVANCE
      ∧ res.mismatch_reasons = [] :=
  evaluateMatch_self_perfect eqSim day0 c5WitRec
    ['J', 'o', 'h', 'n', ' ', 'D', 'o', 'e'] ['N', 'Y'] ['U', 'S']
    ['m', 'a', 'l', 'e'] ⟨1990, 1, 1⟩ rfl (by decide) (by decide) rfl
    (by decide) rfl (by decide) rfl (by decide)
    (by with_unfolding_all decide) (by with_unfolding_all decide)
    (by with_unfolding_all decide)

/-- C5 counterexample: a record carrying all five scorable attributes
(`full_name = "!!!"`, parseable dob, location, nationality, gender)
evaluated against a structurally identical copy yields relevance `1/2`,
category `LOW_RELEVANCE` and a non-empty mismatch list — not relevance
1, `HIGH_RELEVANCE` and no mismatches as the claim states. -/
theorem evaluateMatch_self_perfect_counterexample :
    (evaluateMatch eqSim day0 (normalizeTenantData day0 c5CexRec) c5CexRec).map
        (fun res => (res.relevance_score, res.match_category, res.mismatch_reasons))
      = some (1 / 2, Category.LOW_RELEVANCE, [Reason.nameMismatch 0])
    ∧ ((1 : ℚ) / 2) ≠ 1 := by
  refine ⟨by with_unfolding_all decide, by norm_num⟩

/-- The extraction loop over well-shaped steps concatenates the tagged
steps' results lists in encounter order, duplicates preserved. -/
theorem stepsResults_ok (steps : List PyVal) (hg : ∀ s ∈ steps, goodStep s) :
    stepsResults steps = Except.ok (steps.map specStepResults).flatten := by
  induction steps with
  | nil => rfl
  | cons s rest ih =>
    obtain ⟨kvs, rfl, hres⟩ := hg s (List.mem_cons_self s rest)
    have hstep : stepResults (PyVal.dict kvs)
        = Except.ok (specStepResults (PyVal.dict kvs)) := by
      show (if isBlacklistTag (pyGet kvs "type") then
          match pyGet kvs "results" with
          | some rs => pyIter rs
          | none => Except.ok []
        else Except.ok [])
        = Except.ok (if isBlacklistTag (pyGet kvs "type") then
            match pyGet kvs "results" with
            | some (PyVal.list xs) => xs
            | _ => []
          else [])
      by_cases htag : isBlacklistTag (pyGet kvs "type") = true
      · rw [if_pos htag, if_pos htag]
        cases hr : pyGet kvs "results" with
        | none => rfl
        | some v =>
          obtain ⟨xs, rfl⟩ := hres htag v hr
          rfl
      · rw [if_neg htag, if_neg htag]
    have ihr := ih (fun x hx => hg x (List.mem_cons_of_mem _ hx))
    simp only [stepsResults, hstep, ihr, List.map_cons, List.flatten]
    rfl

/-- C4 (amended): `extract_matches_from_pipeline` returns `[]` when the
`pipeline` key is absent or its value is neither a list nor a dict;
for a list of well-shaped steps it concatenates, in encounter order and
preserving duplicates, the `results` lists of the steps tagged
`refinitiv-blacklist`; a single well-shaped dict step is accepted as
well.  However — contrary to the claim — a malformed shape INSIDE the
container is not tolerated: a non-dict step raises `AttributeError`
instead of yielding `[]` (see the counterexample). -/
theorem extractMatchesFromPipeline_spec (pd : List (String × PyVal)) :
    (pyGet pd "pipeline" = none → extractMatchesFromPipeline pd = Except.ok [])
    ∧ (∀ v, pyGet pd "pipeline" = some v → (∀ xs, v ≠ PyVal.list xs) →
        (∀ kvs, v ≠ PyVal.dict kvs) → extractMatchesFromPipeline pd = Except.ok [])
    ∧ (∀ steps, pyGet pd "pipeline" = some (PyVal.list steps) →
        (∀ s ∈ steps, goodStep s) →
        extractMatchesFromPipeline pd
          = Except.ok (steps.map specStepResults).flatten)
    ∧ (∀ kvs, pyGet pd "pipeline" = some (PyVal.dict kvs) →
        goodStep (PyVal.dict kvs) →
        extractMatchesFromPipeline pd
          = Except.ok (specStepResults (PyVal.dict kvs))) := by
  refine ⟨?_, ?_, ?_, ?_⟩
  · intro h
    unfold extractMatchesFromPipeline
    rw [h]
  · intro v hv hnl hnd
    unfold extractMatchesFromPipeline
    rw [hv]
    cases v with
    | list xs => exact absurd rfl (hnl xs)
    | dict kvs => exact absurd rfl (hnd kvs)
    | null => rfl
    | bool b => rfl
    | int n => rfl
    | str s => rfl
  · intro steps hv hg
    unfold extractMatchesFromPipeline
    rw [hv]
    exact stepsResults_ok steps hg
  · intro kvs hv hgood
    unfold extractMatchesFromPipeline
    rw [hv]
    obtain ⟨kvs2, heq, hres⟩ := hgood
    cases heq
    show (if isBlacklistTag (pyGet kvs "type") then
        match pyGet kvs "results" with
        | some rs => pyIter rs
        | none => Except.ok []
      else Except.ok [])
      = Except.ok (if isBlacklistTag (pyGet kvs "type") then
          match pyGet kvs "results" with
          | some (PyVal.list xs) => xs
          | _ => []
        else [])
    by_cases htag : isBlacklistTag (pyGet kvs "type") = true
    · rw [if_pos htag, if_pos htag]
      cases hr : pyGet kvs "results" with
      | none => rfl
      | some v =>
        obtain ⟨xs, rfl⟩ := hres htag v hr
        rfl
    · rw [if_neg htag, if_neg htag]

/-- C4 witness: the extraction theorem applied at a concrete container
with two tagged steps (with a duplicated element) and one untagged step:
the two results lists are concatenated in order, duplicates kept. -/
theorem extractMatchesFromPipeline_spec_witness :
    extractMatchesFromPipeline
      [("pipeline", PyVal.list
        [ PyVal.dict [("type", PyVal.str "refinitiv-blacklist"),
            ("results", PyVal.list [PyVal.int 1, PyVal.int 1])],
          PyVal.dict [("type", PyVal.str "other-source"),
            ("results", PyVal.list [PyVal.int 9])],
          PyVal.dict [("type", PyVal.str "refinitiv-blacklist"),
            ("results", PyVal.list [PyVal.int 2])] ])]
      = Except.ok [PyVal.int 1, PyVal.int 1, PyVal.int 2] := by
  have h := (extractMatchesFromPipeline_spec
    [("pipeline", PyVal.list
      [ PyVal.dict [("type", PyVal.str "refinitiv-blacklist"),
          ("results", PyVal.list [PyVal.int 1, PyVal.int 1])],
        PyVal.dict [("type", PyVal.str "other-source"),
          ("results", PyVal.list [PyVal.int 9])],
        PyVal.dict [("type", PyVal.str "refinitiv-blacklist"),
          ("results", PyVal.list [PyVal.int 2])] ])]).2.2.1
  rw [h _ rfl ?_]
  · rfl
  · intro s hs
    simp only [List.mem_cons, List.not_mem_nil, or_false] at hs
    rcases hs with rfl | rfl | rfl
    · exact ⟨_, rfl, fun _ v hv => by
        cases hv
        exact ⟨_, rfl⟩⟩
    · exact ⟨_, rfl, fun htag => by cases htag⟩
    · exact ⟨_, rfl, fun _ v hv => by
        cases hv
        exact ⟨_, rfl⟩⟩

/-- C4 counterexample: a malformed container — the `pipeline` list
holding a bare number instead of a step dict — makes the method raise
`AttributeError` at `step.get('type')` rather than return `[]`. -/
theorem extractMatchesFromPipeline_counterexample :
    extractMatchesFromPipeline [("pipeline", PyVal.list [PyVal.int 1])]
      = Except.error "AttributeError: object has no attribute get" := rfl

/-- Every element of a Nat list is bounded by its `foldr max`. -/
theorem le_foldr_max (l : List Nat) (x : Nat) (hx : x ∈ l) :
    x ≤ l.foldr (fun a b => Nat.max a b) 0 := by
  induction l with
  | nil => cases hx
  | cons a rest ih =>
    rcases List.mem_cons.mp hx with rfl | hx'
    · exact Nat.le_max_left _ _
    · exact le_trans (ih hx') (Nat.le_max_right _ _)

/-- A reference present in the heap is strictly below the fresh one. -/
theorem hGet_lt_freshRef (h : Heap) (q : Nat) (c : DictCell)
    (hq : hGet h q = some c) : q < freshRef h := by
  unfold hGet at hq
  cases hf : h.find? (fun p => p.1 = q) with
  | none => rw [hf] at hq; exact Option.noConfusion hq
  | some p =>
    have hmem := List.mem_of_find?_eq_some hf
    have hpq : p.1 = q := by
      have := List.find?_some hf
      exact of_decide_eq_true this
    have : p.1 ∈ h.map (fun p => p.1) := List.mem_map_of_mem _ hmem
    have hle := le_foldr_max (h.map (fun p => p.1)) p.1 this
    unfold freshRef
    omega

/-- Lookup skips a freshly consed cell with a different reference. -/
theorem hGet_cons_ne (h : Heap) (r q : Nat) (v : DictCell) (hne : r ≠ q) :
    hGet ((r, v) :: h) q = hGet h q := by
  unfold hGet
  simp only [List.find?]
  have : (decide ((r, v).1 = q)) = false := by simp [hne]
  rw [this]

/-- In-place update of one cell leaves every other reference's lookup
unchanged. -/
theorem hGet_hSet_ne (h : Heap) (r q : Nat) (v : DictCell) (hne : r ≠ q) :
    hGet (hSet h r v) q = hGet h q := by
  induction h with
  | nil => rfl
  | cons p rest ih =>
    unfold hSet
    simp only [List.map_cons]
    by_cases hp : p.1 = r
    · rw [if_pos hp]
      have h1 : (decide ((r, v).1 = q)) = false := by simp [hne]
      have h2 : (decide (p.1 = q)) = false := by simp [hp, hne]
      unfold hGet
      simp only [List.find?, h1, h2]
      exact ih
    · rw [if_neg hp]
      unfold hGet
      simp only [List.find?]
      by_cases hq : p.1 = q
      · simp [hq]
      · have h2 : (decide (p.1 = q)) = false := by simp [hq]
        simp only [h2]
        exact ih

/-- C9: the store-passing replay of `evaluate_match` never writes
through the caller's candidate reference: whatever dict the caller's
reference held before the call, it holds the same dict afterwards — all
writes go to the fresh copies made at lines 314 and 87. -/
theorem evaluateMatchHeap_no_mutation (L : StrSim) (today : Date)
    (tenant : Record) (h : Heap) (mRef : Nat) (cell : DictCell)
    (hm : hGet h mRef = some cell) :
    hGet (evaluateMatchHeap L today tenant h mRef).1 mRef = some cell := by
  have hf1 : freshRef h ≠ mRef := by
    intro he
    exact absurd (hGet_lt_freshRef h mRef cell hm) (by omega)
  have hm1 : hGet ((freshRef h, cell) :: h) mRef = some cell := by
    rw [hGet_cons_ne h (freshRef h) mRef cell hf1]
    exact hm
  have hf2 : freshRef ((freshRef h, cell) :: h) ≠ mRef := by
    intro he
    exact absurd (hGet_lt_freshRef _ mRef cell hm1) (by omega)
  have hm2 : hGet ((freshRef ((freshRef h, cell) :: h),
      (⟨normalizeTenantData today cell.base, cell.evalKeys⟩ : DictCell))
        :: (freshRef h, cell) :: h) mRef = some cell := by
    rw [hGet_cons_ne _ _ mRef _ hf2]
    exact hm1
  unfold evaluateMatchHeap
  rw [hm]
  simp only [hAlloc]
  cases hE : evaluateMatch L today tenant cell.base with
  | none => exact hm2
  | some res =>
    cases hdob : cell.base.dob with
    | none =>
      simp only
      rw [hGet_hSet_ne _ _ _ _ hf1]
      exact hm2
    | some dv =>
      cases dv with
      | str s =>
        simp only
        rw [hGet_hSet_ne _ _ _ _ hf1]
        exact hm2
      | null =>
        simp only
        rw [hGet_hSet_ne _ _ _ _ hf1]
        exact hm2
      | date d =>
        simp only
        rw [hGet_hSet_ne _ _ _ _ hf1, hGet_hSet_ne _ _ _ _ hf1]
        exact hm2

/-- C9 witness: the no-mutation theorem applied at a concrete one-cell
heap holding a candidate with a `datetime` dob (so the final dob
re-serialization write also happens): the caller's cell is unchanged. -/
theorem evaluateMatchHeap_no_mutation_witness :
    hGet (evaluateMatchHeap eqSim day0 (normalizeTenantData day0 {})
        [(0, ⟨{ dob := some (DobVal.date ⟨1990, 1, 15⟩) }, none⟩)] 0).1 0
      = some ⟨{ dob := some (DobVal.date ⟨1990, 1, 15⟩) }, none⟩ :=
  evaluateMatchHeap_no_mutation eqSim day0 (normalizeTenantData day0 {})
    [(0, ⟨{ dob := some (DobVal.date ⟨1990, 1, 15⟩) }, none⟩)] 0
    ⟨{ dob := some (DobVal.date ⟨1990, 1, 15⟩) }, none⟩ rfl
